import Mathlib

/-!
Shallow embedding of the podman QEMU machine stubber
(`pkg/machine/qemu`, file `part_000`): command-line assembly
(`setQEMUCommandLine`), process launch with retry (`runStartVMCommand`),
the start sequence (`StartVM`), guest readiness wait (`waitForReady`),
state-gated attribute mutation (`SetProviderAttrs`), and in-guest volume
mounting (`MountVolumesToVM`).  External effects (helper-binary lookup,
socket dialing, SSH execution, process start) are modelled as environment
records supplying each call's outcome; traces of emitted effects are
returned explicitly so ordering and cardinality properties can be stated.
-/

namespace Qemu

/-- Errors returned by the Go functions.  `notFound` models the
binary-not-found class (`exec.ErrNotFound`); `ctxWrap s e` models
`fmt.Errorf` wrapping an error `e` with a contextual message `s`. -/
inductive GoError where
  | notFound : GoError
  | msg : String → GoError
  | ctxWrap : String → GoError → GoError
deriving DecidableEq, Repr

/-- Modelled from the spec: one token group of the assembled hypervisor
invocation.  The `command` package (`command.QemuCmd` and its builder
methods) is not part of the sources; the spec describes the command line
as ordered token groups, one appended per builder call. -/
inductive TokenGroup where
  | archOptions
  | bootableImage (path : String)
  | memory (mb : Nat)
  | cpus (n : Nat)
  | ignitionFile (path : String)
  | qmpMonitor (path : String)
  | network (sockPath : String)
  | serialPort (readyPath pidPath name : String)
  | virtfs (source tag securityModel : String) (readOnly : Bool)
  | usb (dev : String)
  | display (mode : String)
deriving DecidableEq, Repr

/-- Modelled from the spec: the assembled hypervisor invocation —
executable path followed by ordered token groups
(`command.QemuCmd`, whose first token is the executable). -/
structure QemuCmd where
  exe : String
  groups : List TokenGroup
deriving DecidableEq, Repr, Inhabited

/-- Modelled from the spec: `command.NewQemuBuilder(binary, archOptions)`
starts the command line with the executable and the arch options. -/
def NewQemuBuilder (exe : String) : QemuCmd :=
  ⟨exe, [TokenGroup.archOptions]⟩

/-- Modelled from the spec: appends the bootable-image reference. -/
def QemuCmd.SetBootableImage (c : QemuCmd) (path : String) : QemuCmd :=
  { c with groups := c.groups ++ [TokenGroup.bootableImage path] }

/-- Modelled from the spec: appends the memory-size flag. -/
def QemuCmd.SetMemory (c : QemuCmd) (mb : Nat) : QemuCmd :=
  { c with groups := c.groups ++ [TokenGroup.memory mb] }

/-- Modelled from the spec: appends the CPU-count flag. -/
def QemuCmd.SetCPUs (c : QemuCmd) (n : Nat) : QemuCmd :=
  { c with groups := c.groups ++ [TokenGroup.cpus n] }

/-- Modelled from the spec: appends the first-boot configuration
attachment. -/
def QemuCmd.SetIgnitionFile (c : QemuCmd) (path : String) : QemuCmd :=
  { c with groups := c.groups ++ [TokenGroup.ignitionFile path] }

/-- Modelled from the spec: appends the monitor-socket attachment. -/
def QemuCmd.SetQmpMonitor (c : QemuCmd) (path : String) : QemuCmd :=
  { c with groups := c.groups ++ [TokenGroup.qmpMonitor path] }

/-- Modelled from the spec: appends the network-device attachment
referencing the proxy socket; the builder call is fallible, its error
outcome is supplied by the caller's environment. -/
def QemuCmd.SetNetwork (c : QemuCmd) (sockPath : String)
    (errOpt : Option GoError) : Except GoError QemuCmd :=
  match errOpt with
  | some e => .error e
  | none => .ok { c with groups := c.groups ++ [TokenGroup.network sockPath] }

/-- Modelled from the spec: appends the serial-port attachment referencing
the readiness socket, the PID-file path and the VM name. -/
def QemuCmd.SetSerialPort (c : QemuCmd) (readyPath pidPath name : String) :
    QemuCmd :=
  { c with groups := c.groups ++ [TokenGroup.serialPort readyPath pidPath name] }

/-- Modelled from the spec: appends one shared-directory (virtfs)
attachment parameterized by sharing tag, security model, and read-only
flag. -/
def QemuCmd.SetVirtfsMount (c : QemuCmd)
    (source tag securityModel : String) (readOnly : Bool) : QemuCmd :=
  { c with groups := c.groups ++ [TokenGroup.virtfs source tag securityModel readOnly] }

/-- Modelled from the spec: appends zero or more USB passthrough
attachments, one per declared host device. -/
def QemuCmd.SetUSBHostPassthrough (c : QemuCmd) (usbs : List String) :
    QemuCmd :=
  { c with groups := c.groups ++ usbs.map TokenGroup.usb }

/-- Modelled from the spec: appends the display-mode flag. -/
def QemuCmd.SetDisplay (c : QemuCmd) (mode : String) : QemuCmd :=
  { c with groups := c.groups ++ [TokenGroup.display mode] }

/-- One configured shared directory (`vmconfigs.Mount`). -/
structure Mount where
  originalInput : String
  source : String
  target : String
  tag : String
  readOnly : Bool
  type : String
deriving DecidableEq, Repr

/-- Resource spec of a machine (`vmconfigs.ResourceConfig`); USB devices
kept as their string forms. -/
structure Resources where
  memory : Nat
  cpus : Nat
  diskSize : Nat
  usbs : List String
deriving DecidableEq, Repr

/-- Host-user sub-record; only the rootful flag matters here. -/
structure HostUser where
  rootful : Bool
deriving DecidableEq, Repr

/-- SSH/remote-access descriptor of a machine. -/
structure SSHConfig where
  remoteUsername : String
  identityPath : String
  port : Nat
deriving DecidableEq, Repr

/-- Backend-specific sub-record (`vmconfigs.QEMUConfig`): monitor socket
and PID-file path, kept as resolved path strings. -/
structure QEMUConfig where
  qmpMonitorPath : String
  qemuPidPath : String
deriving DecidableEq, Repr

/-- The machine configuration (`vmconfigs.MachineConfig`), restricted to
the fields the embedded operations read or write. -/
structure MachineConfig where
  name : String
  imagePath : String
  resources : Resources
  mounts : List Mount
  hostUser : HostUser
  ssh : SSHConfig
  qemuHypervisor : QEMUConfig
deriving DecidableEq, Repr

/-- Environment for `setQEMUCommandLine`: outcomes of the fallible
external calls it makes, in source order, plus the security-model
component of `vmconfigs.SplitVolume` (a pure helper not present in the
sources), taken as an arbitrary function of the original volume string. -/
structure CmdEnv where
  findQEMUBinary : Except GoError String
  ignitionFile : Except GoError String
  readySocket : Except GoError String
  gvProxySocket : Except GoError String
  setNetworkErr : Option GoError
  splitVolumeSecurityModel : String → String

/-- Assembles the QEMU command line, mirroring `setQEMUCommandLine`:
binary lookup, ignition file, ready socket, then the builder calls in
source order, one virtfs attachment per configured mount, and the USB
passthrough list. -/
def setQEMUCommandLine (env : CmdEnv) (mc : MachineConfig) :
    Except GoError QemuCmd :=
  match env.findQEMUBinary with
  | .error e => .error e
  | .ok qemuBinary =>
    match env.ignitionFile with
    | .error e => .error e
    | .ok ignFile =>
      match env.readySocket with
      | .error e => .error e
      | .ok readySock =>
        let c := NewQemuBuilder qemuBinary
        let c := c.SetBootableImage mc.imagePath
        let c := c.SetMemory mc.resources.memory
        let c := c.SetCPUs mc.resources.cpus
        let c := c.SetIgnitionFile ignFile
        let c := c.SetQmpMonitor mc.qemuHypervisor.qmpMonitorPath
        match env.gvProxySocket with
        | .error e => .error e
        | .ok gvSock =>
          match c.SetNetwork gvSock env.setNetworkErr with
          | .error e => .error e
          | .ok c =>
            let c := c.SetSerialPort readySock mc.qemuHypervisor.qemuPidPath mc.name
            let c := mc.mounts.foldl
              (fun acc m => acc.SetVirtfsMount m.source m.tag
                (env.splitVolumeSecurityModel m.originalInput) m.readOnly) c
            let c := c.SetUSBHostPassthrough mc.resources.usbs
            .ok c

/-- Counts the monitor-socket attachments in a command line. -/
def QemuCmd.countMonitor (c : QemuCmd) : Nat :=
  c.groups.countP fun g => match g with | .qmpMonitor _ => true | _ => false

/-- Counts the network-device attachments in a command line. -/
def QemuCmd.countNetwork (c : QemuCmd) : Nat :=
  c.groups.countP fun g => match g with | .network _ => true | _ => false

/-- Counts the serial-port attachments in a command line. -/
def QemuCmd.countSerial (c : QemuCmd) : Nat :=
  c.groups.countP fun g => match g with | .serialPort _ _ _ => true | _ => false

/-- Counts the shared-directory (virtfs) attachments in a command line. -/
def QemuCmd.countVirtfs (c : QemuCmd) : Nat :=
  c.groups.countP fun g => match g with | .virtfs _ _ _ _ => true | _ => false

/-- Counts the display-mode token groups in a command line. -/
def QemuCmd.countDisplay (c : QemuCmd) : Nat :=
  c.groups.countP fun g => match g with | .display _ => true | _ => false

/-- Modelled from the spec: the logical name of the hypervisor binary
used for helper-binary lookup (the arch-specific `QemuCommand` constant
lives in a sibling file not present in the sources). -/
def QemuCommand : String := "qemu-system"

/-- The process to be launched: executable path plus the full command
line (`exec.Cmd` with `Path` and `Args`). -/
structure Cmd where
  path : String
  args : QemuCmd
deriving DecidableEq, Repr

/-- Observable effects emitted by the start sequence, in order. -/
inductive Event where
  | waitGvProxy (attempts delayMs : Nat) (path : String)
  | procStart (exe : String) (cmd : QemuCmd)
  | helperLookup (name : String)
  | procStartRetry (exe : String)
  | waitReady (path : String) (pid : Nat)
deriving DecidableEq, Repr

/-- Whether an event is an attempt to start the hypervisor process. -/
def Event.isStartAttempt : Event → Bool
  | .procStart _ _ => true
  | .procStartRetry _ => true
  | _ => false

/-- Whether an event is the readiness wait. -/
def Event.isWaitReadyEv : Event → Bool
  | .waitReady _ _ => true
  | _ => false

/-- Environment for `runStartVMCommand`: the outcome of the initial
`cmd.Start()`, of `config.Default()`, of the helper-binary lookup, and of
the retried `cmd.Start()` (`none` means success). -/
structure LaunchEnv where
  firstStart : Option GoError
  configDefault : Option GoError
  findHelperBinary : Except GoError String
  secondStart : Option GoError

/-- Launches the hypervisor process, mirroring `runStartVMCommand`: on
any initial `cmd.Start()` error it re-resolves the executable path via
`cfg.FindHelperBinary(QemuCommand, true)`, updates `cmd.Path`, and
retries once; a second failure is wrapped with the attempted command.
Returns the trace of attempts, the (possibly re-pathed) command, and the
result. -/
def runStartVMCommand (env : LaunchEnv) (cmd : Cmd) :
    List Event × Cmd × Except GoError Unit :=
  match env.firstStart with
  | none => ([.procStart cmd.path cmd.args], cmd, .ok ())
  | some _ =>
    match env.configDefault with
    | some e => ([.procStart cmd.path cmd.args], cmd, .error e)
    | none =>
      match env.findHelperBinary with
      | .error e =>
        ([.procStart cmd.path cmd.args, .helperLookup QemuCommand], cmd, .error e)
      | .ok newPath =>
        let cmd2 : Cmd := { cmd with path := newPath }
        match env.secondStart with
        | none =>
          ([.procStart cmd.path cmd.args, .helperLookup QemuCommand,
            .procStartRetry newPath], cmd2, .ok ())
        | some e2 =>
          ([.procStart cmd.path cmd.args, .helperLookup QemuCommand,
            .procStartRetry newPath], cmd2,
           .error (.ctxWrap ("unable to execute " ++ newPath) e2))

/-- Module-level backoff delay for the gvproxy wait, in milliseconds
(`gvProxyWaitBackoff = 500 * time.Millisecond`). -/
def gvProxyWaitBackoff : Nat := 500

/-- Module-level attempt bound for the gvproxy wait
(`gvProxyMaxBackoffAttempts = 6`). -/
def gvProxyMaxBackoffAttempts : Nat := 6

/-- Environment for `StartVM`: the command-line environment, the outcome
of the gvproxy socket wait, of the dev-null file setup, whether
debug-level logging is enabled, the launch environment, and the started
process's PID. -/
structure StartEnv where
  cmdEnv : CmdEnv
  gvProxyWait : Option GoError
  devNull : Option GoError
  debugEnabled : Bool
  launch : LaunchEnv
  pid : Nat

/-- The successful outcome of `StartVM`: the started process's PID, the
readiness-socket path captured by the deferred ready closure, and the
final command line that was executed. -/
structure StartResult where
  pid : Nat
  readySocketPath : String
  cmdLine : QemuCmd
deriving DecidableEq, Repr

/-- The start sequence, mirroring `StartVM`: build the command line, wait
for the gvproxy socket with the module-level backoff policy, open the
dev-null files, suppress the graphic display unless debug logging is
enabled, then launch the process via `runStartVMCommand`.  The readiness
wait is not performed here: it is deferred to the returned handle. -/
def StartVM (env : StartEnv) (mc : MachineConfig) :
    List Event × Except GoError StartResult :=
  match setQEMUCommandLine env.cmdEnv mc with
  | .error e => ([], .error (.ctxWrap "unable to generate qemu command line" e))
  | .ok builtCmd =>
    match env.cmdEnv.readySocket with
    | .error e => ([], .error e)
    | .ok readySock =>
      match env.cmdEnv.gvProxySocket with
      | .error e => ([], .error e)
      | .ok gvSock =>
        let tr0 := [Event.waitGvProxy gvProxyMaxBackoffAttempts gvProxyWaitBackoff gvSock]
        match env.gvProxyWait with
        | some e => (tr0, .error e)
        | none =>
          match env.devNull with
          | some e => (tr0, .error e)
          | none =>
            let cmdLine :=
              if env.debugEnabled then builtCmd else builtCmd.SetDisplay "none"
            let cmd : Cmd := ⟨cmdLine.exe, cmdLine⟩
            match runStartVMCommand env.launch cmd with
            | (ltr, _, .error e) => (tr0 ++ ltr, .error e)
            | (ltr, _, .ok _) =>
              (tr0 ++ ltr, .ok ⟨env.pid, readySock, cmdLine⟩)

/-- The arguments of one backoff-dial request: attempt count, delay in
milliseconds, socket path, and the PID bound to the process-health
check. -/
structure DialRequest where
  attempts : Nat
  delayMs : Nat
  path : String
  pid : Nat
deriving DecidableEq, Repr

/-- Environment for `waitForReady`: the outcome of
`sockets.DialSocketWithBackoffsAndProcCheck` — an error, or a connection
whose single `ReadString` of a newline-terminated line yields either the
line or a read error. -/
structure ReadyEnv where
  dial : Except GoError (Except GoError String)

/-- Waits for guest boot, mirroring `waitForReady`: dials the readiness
socket with 6 attempts and a 500ms delay and the process-health check
bound to the given PID; on connection, reads one newline-terminated line
and returns its read error (nil on receipt).  Returns the dial request it
issued together with the result. -/
def waitForReady (renv : ReadyEnv) (readySocketPath : String) (pid : Nat) :
    DialRequest × Except GoError Unit :=
  let req : DialRequest := ⟨6, 500, readySocketPath, pid⟩
  match renv.dial with
  | .error e => (req, .error e)
  | .ok readLine =>
    match readLine with
    | .ok _line => (req, .ok ())
    | .error e => (req, .error e)

/-- The caller protocol around `StartVM`: run the start sequence and, on
success, invoke the returned readiness handle (which dials the readiness
socket for the started process).  Produces the combined event trace. -/
def startAndAwait (env : StartEnv) (renv : ReadyEnv) (mc : MachineConfig) :
    List Event × Except GoError Unit :=
  match StartVM env mc with
  | (tr, .error e) => (tr, .error e)
  | (tr, .ok res) =>
    let reqr := waitForReady renv res.readySocketPath res.pid
    (tr ++ [Event.waitReady reqr.1.path reqr.1.pid], reqr.2)

/-- VM states (the `define` package's machine states; the spec's VMState
enum). -/
inductive VMState where
  | uninitialized
  | created
  | starting
  | running
  | stopping
  | stopped
  | failed
deriving DecidableEq, Repr

/-- Requested attribute changes (`define.SetOptions`): disk size in GiB,
rootful toggle, and the raw USB list to be parsed. -/
structure SetOptions where
  diskSize : Option Nat
  rootful : Option Bool
  usbs : Option (List String)
deriving DecidableEq, Repr

/-- Observable effects of the attribute-mutation operation. -/
inductive AttrEvent where
  | resizeDisk (sizeGiB : Nat) (path : String)
  | setRootful (b : Bool)
  | parseUSBs (raw : List String)
deriving DecidableEq, Repr

/-- Environment for `SetProviderAttrs`: the outcome of the state query
`q.State(mc, false)`, of the external disk resize, of `mc.SetRootful`,
and the pure `define.ParseUSBs` (not present in the sources), taken as an
arbitrary function. -/
structure AttrEnv where
  state : Except GoError VMState
  resize : Option GoError
  setRootfulErr : Option GoError
  parseUSBs : List String → Except GoError (List String)

/-- State-gated attribute mutation, mirroring `SetProviderAttrs`: query
the VM state, reject unless it is Stopped, then in order resize the disk
if requested, toggle rootful only when the requested value differs from
the current one, and parse-and-set the USB list if requested.  Returns
the emitted effects, the updated machine config, and the result. -/
def SetProviderAttrs (env : AttrEnv) (mc : MachineConfig)
    (opts : SetOptions) : List AttrEvent × MachineConfig × Except GoError Unit :=
  match env.state with
  | .error e => ([], mc, .error e)
  | .ok s =>
    if s ≠ VMState.stopped then
      ([], mc, .error (.msg "unable to change settings unless vm is stopped"))
    else
      let (ev1, res1) :=
        match opts.diskSize with
        | none => ([], none)
        | some d => ([AttrEvent.resizeDisk d mc.imagePath], env.resize)
      match res1 with
      | some e => (ev1, mc, .error e)
      | none =>
        let (ev2, mc2, res2) :=
          match opts.rootful with
          | none => ([], mc, none)
          | some r =>
            if mc.hostUser.rootful ≠ r then
              match env.setRootfulErr with
              | some e => ([AttrEvent.setRootful r], mc, some e)
              | none =>
                ([AttrEvent.setRootful r], { mc with hostUser := ⟨r⟩ }, none)
            else ([], mc, none)
        match res2 with
        | some e => (ev1 ++ ev2, mc2, .error e)
        | none =>
          match opts.usbs with
          | none => (ev1 ++ ev2, mc2, .ok ())
          | some raw =>
            match env.parseUSBs raw with
            | .error e => (ev1 ++ ev2 ++ [AttrEvent.parseUSBs raw], mc2, .error e)
            | .ok parsed =>
              (ev1 ++ ev2 ++ [AttrEvent.parseUSBs raw],
               { mc2 with resources := { mc2.resources with usbs := parsed } },
               .ok ())

/-- The supported mount type constant (`MountType9p`, defined in a
sibling file of the package; the spec calls it NineP / 9p). -/
def MountType9p : String := "9p"

/-- One remote command issued over SSH (`machine.CommonSSH` call). -/
structure SSHCall where
  username : String
  identityPath : String
  machineName : String
  port : Nat
  args : List String
deriving DecidableEq, Repr

/-- Go's `strings.HasPrefix(s, pre)`, embedded over the character
sequences of the strings. -/
def hasPrefixStr (s pre : String) : Bool :=
  pre.data.isPrefixOf s.data

/-- Builds the remote directory-creation command for a mount target,
mirroring the argument assembly in `MountVolumesToVM`: targets outside
`/home` and `/mnt` get `sudo chattr -i /` before the `mkdir` and
`sudo chattr +i /` after it. -/
def mkdirArgs (target : String) : List String :=
  let args := ["-q", "--"]
  let args :=
    if !(hasPrefixStr target "/home") && !(hasPrefixStr target "/mnt") then
      args ++ ["sudo", "chattr", "-i", "/", ";"]
    else args
  let args := args ++ ["sudo", "mkdir", "-p", target]
  if !(hasPrefixStr target "/home") && !(hasPrefixStr target "/mnt") then
    args ++ [";", "sudo", "chattr", "+i", "/", ";"]
  else args

/-- Builds the remote 9p mount command for a mount, mirroring the
`MountType9p` case of `MountVolumesToVM`. -/
def mountArgs9p (m : Mount) : List String :=
  let mountOptions := ["-t", "9p"]
  let mountOptions := mountOptions ++ ["-o", "trans=virtio", m.tag, m.target]
  let mountOptions := mountOptions ++ ["-o", "version=9p2000.L,msize=131072,cache=mmap"]
  let mountOptions := if m.readOnly then mountOptions ++ ["-o", "ro"] else mountOptions
  ["-q", "--", "sudo", "mount"] ++ mountOptions

/-- The remote directory-creation `CommonSSH` call issued for a mount. -/
def mkdirCall (mc : MachineConfig) (m : Mount) : SSHCall :=
  ⟨mc.ssh.remoteUsername, mc.ssh.identityPath, mc.name, mc.ssh.port,
   mkdirArgs m.target⟩

/-- The remote 9p mount `CommonSSH` call issued for a mount. -/
def mountCall (mc : MachineConfig) (m : Mount) : SSHCall :=
  ⟨mc.ssh.remoteUsername, mc.ssh.identityPath, mc.name, mc.ssh.port,
   mountArgs9p m⟩

/-- The per-mount loop of `MountVolumesToVM`: for each mount, issue the
directory-creation command, then dispatch on the mount type — a 9p mount
issues the mount command, any other type fails the whole pass.  `sshExec`
supplies each remote command's outcome; the issued calls are returned in
order. -/
def mountLoop (sshExec : SSHCall → Option GoError) (mc : MachineConfig) :
    List Mount → List SSHCall × Except GoError Unit
  | [] => ([], .ok ())
  | m :: rest =>
    match sshExec (mkdirCall mc m) with
    | some e => ([mkdirCall mc m], .error e)
    | none =>
      if m.type = MountType9p then
        match sshExec (mountCall mc m) with
        | some e => ([mkdirCall mc m, mountCall mc m], .error e)
        | none =>
          let (cs, r) := mountLoop sshExec mc rest
          (mkdirCall mc m :: mountCall mc m :: cs, r)
      else ([mkdirCall mc m], .error (.msg ("unknown mount type: " ++ m.type)))

/-- Mounts all configured volumes into the VM, mirroring
`MountVolumesToVM` (the `quiet` flag only suppresses progress output). -/
def MountVolumesToVM (sshExec : SSHCall → Option GoError)
    (mc : MachineConfig) (_quiet : Bool) : List SSHCall × Except GoError Unit :=
  mountLoop sshExec mc mc.mounts

/-- The stubber's existence check, mirroring `Exists`: always reports
that no machine exists and never errors. -/
def Exists (_name : String) : Bool × Option GoError :=
  (false, none)

/-- A fully successful command-line environment, used to evaluate the
theorems at a concrete point. -/
def cmdEnvW : CmdEnv :=
  { findQEMUBinary := Except.ok "/usr/bin/qemu-system-x86_64"
    ignitionFile := Except.ok "/run/ign.json"
    readySocket := Except.ok "/run/ready.sock"
    gvProxySocket := Except.ok "/run/gvproxy.sock"
    setNetworkErr := none
    splitVolumeSecurityModel := fun _ => "none" }

/-- A concrete machine configuration with two 9p mounts. -/
def mcW : MachineConfig :=
  { name := "m0"
    imagePath := "/img.qcow2"
    resources := ⟨2048, 2, 100, ["vendor=1:product=2"]⟩
    mounts := [⟨"/a:/mnt/a", "/a", "/mnt/a", "vol0", false, "9p"⟩,
               ⟨"/b:/data/b", "/b", "/data/b", "vol1", true, "9p"⟩]
    hostUser := ⟨false⟩
    ssh := ⟨"core", "/id", 22⟩
    qemuHypervisor := ⟨"/run/qmp.sock", "/run/vm.pid"⟩ }

/-- The command line built for `cmdEnvW` and `mcW`. -/
def cmdW : QemuCmd :=
  (setQEMUCommandLine cmdEnvW mcW).toOption.getD ⟨"", []⟩

/-- A launch environment whose initial start succeeds. -/
def launchEnvOk : LaunchEnv :=
  { firstStart := none
    configDefault := none
    findHelperBinary := Except.ok "/usr/libexec/qemu"
    secondStart := none }

/-- A launch environment whose initial start fails with an error that is
not of the binary-not-found class, and whose retried start succeeds. -/
def launchEnvRetryOther : LaunchEnv :=
  { firstStart := some (GoError.msg "permission denied")
    configDefault := none
    findHelperBinary := Except.ok "/usr/libexec/qemu"
    secondStart := none }

/-- A launch environment whose retried start fails as well. -/
def launchEnvSecondFail : LaunchEnv :=
  { firstStart := some GoError.notFound
    configDefault := none
    findHelperBinary := Except.ok "/usr/libexec/qemu"
    secondStart := some (GoError.msg "exec format error") }

/-- A concrete command to launch. -/
def cmdC : Cmd :=
  ⟨"/usr/bin/qemu-system-x86_64", ⟨"/usr/bin/qemu-system-x86_64", []⟩⟩

/-- A fully successful start environment with debug logging disabled. -/
def startEnvW : StartEnv :=
  { cmdEnv := cmdEnvW
    gvProxyWait := none
    devNull := none
    debugEnabled := false
    launch := launchEnvOk
    pid := 1234 }

/-- A start environment whose gvproxy socket never becomes reachable. -/
def startEnvGvFail : StartEnv :=
  { cmdEnv := cmdEnvW
    gvProxyWait := some (GoError.msg "gvproxy socket not ready")
    devNull := none
    debugEnabled := false
    launch := launchEnvOk
    pid := 1234 }

/-- A readiness environment whose dial connects and delivers the boot
line. -/
def readyEnvW : ReadyEnv :=
  { dial := Except.ok (Except.ok "Ready") }

/-- The start result produced by `startEnvW` on `mcW`. -/
def startResW : StartResult :=
  (StartVM startEnvW mcW).2.toOption.getD ⟨0, "", ⟨"", []⟩⟩

/-- An attribute environment reporting a running VM. -/
def attrEnvRunning : AttrEnv :=
  { state := Except.ok VMState.running
    resize := none
    setRootfulErr := none
    parseUSBs := fun l => Except.ok l }

/-- An attribute environment reporting a stopped VM. -/
def attrEnvStopped : AttrEnv :=
  { state := Except.ok VMState.stopped
    resize := none
    setRootfulErr := none
    parseUSBs := fun l => Except.ok l }

/-- A request changing disk size, rootful flag, and USB list at once. -/
def optsAll : SetOptions :=
  { diskSize := some 200, rootful := some true, usbs := some ["usb1"] }

/-- A request whose rootful value equals the current setting of `mcW`. -/
def optsRootfulSame : SetOptions :=
  { diskSize := some 200, rootful := some false, usbs := some ["usb1"] }

/-- A remote executor on which every command succeeds. -/
def sshAllOk : SSHCall → Option GoError := fun _ => none

/-- A mount with an unsupported mount type and a target outside the
known-writable prefixes. -/
def mountBad : Mount :=
  ⟨"/src:/data", "/src", "/data", "vol0", false, "virtiofs"⟩

/-- A machine configuration whose single mount has an unsupported type. -/
def mcBadMount : MachineConfig :=
  { name := "m1"
    imagePath := "/img.qcow2"
    resources := ⟨2048, 2, 100, []⟩
    mounts := [mountBad]
    hostUser := ⟨false⟩
    ssh := ⟨"core", "/id", 22⟩
    qemuHypervisor := ⟨"/run/qmp.sock", "/run/vm.pid"⟩ }

/-! Helper lemmas. -/

/-- Appending one token group per list element over a fold: if each step
appends exactly one group, the folded command's groups are the original
groups followed by one group per element. -/
theorem foldl_groups_append (g : Mount → TokenGroup)
    (f : QemuCmd → Mount → QemuCmd)
    (hf : ∀ c m, (f c m).groups = c.groups ++ [g m])
    (ms : List Mount) (c : QemuCmd) :
    (ms.foldl f c).groups = c.groups ++ ms.map g := by
  induction ms generalizing c with
  | nil => simp
  | cons m ms ih => rw [List.foldl_cons, ih, hf]; simp

/-- A successful command-line construction yields exactly the source's
token-group sequence: arch options, image, memory, CPUs, ignition,
monitor, network, serial, one virtfs group per mount, then the USB
passthrough groups. -/
theorem setQEMUCommandLine_groups (env : CmdEnv) (mc : MachineConfig)
    (c : QemuCmd) (h : setQEMUCommandLine env mc = Except.ok c) :
    ∃ ign ready gv,
      env.ignitionFile = Except.ok ign ∧
      env.readySocket = Except.ok ready ∧
      env.gvProxySocket = Except.ok gv ∧
      c.groups =
        [TokenGroup.archOptions,
         TokenGroup.bootableImage mc.imagePath,
         TokenGroup.memory mc.resources.memory,
         TokenGroup.cpus mc.resources.cpus,
         TokenGroup.ignitionFile ign,
         TokenGroup.qmpMonitor mc.qemuHypervisor.qmpMonitorPath,
         TokenGroup.network gv,
         TokenGroup.serialPort ready mc.qemuHypervisor.qemuPidPath mc.name]
        ++ mc.mounts.map (fun m => TokenGroup.virtfs m.source m.tag
             (env.splitVolumeSecurityModel m.originalInput) m.readOnly)
        ++ mc.resources.usbs.map TokenGroup.usb := by
  rcases hfb : env.findQEMUBinary with e | qemuBinary <;>
    rcases hig : env.ignitionFile with e2 | ign <;>
    rcases hrs : env.readySocket with e3 | ready <;>
    rcases hgv : env.gvProxySocket with e4 | gv <;>
    rcases hne : env.setNetworkErr with _ | e5 <;>
      simp [setQEMUCommandLine, hfb, hig, hrs, hgv, hne, QemuCmd.SetNetwork,
        NewQemuBuilder, QemuCmd.SetBootableImage, QemuCmd.SetMemory,
        QemuCmd.SetCPUs, QemuCmd.SetIgnitionFile, QemuCmd.SetQmpMonitor,
        QemuCmd.SetSerialPort, QemuCmd.SetUSBHostPassthrough] at h
  subst h
  refine ⟨ign, ready, gv, rfl, rfl, rfl, ?_⟩
  rw [foldl_groups_append (fun m => TokenGroup.virtfs m.source m.tag
    (env.splitVolumeSecurityModel m.originalInput) m.readOnly) _ (fun c m => rfl)]

/-- The dial request issued by the readiness wait, in every
environment. -/
theorem waitForReady_fst (renv : ReadyEnv) (path : String) (pid : Nat) :
    (waitForReady renv path pid).1 = ⟨6, 500, path, pid⟩ := by
  rcases hd : renv.dial with e | rl
  · simp [waitForReady, hd]
  · rcases rl with e | l <;> simp [waitForReady, hd]

/-- Every launch trace begins with a start attempt and never contains a
readiness-wait event. -/
theorem runStartVMCommand_trace (env : LaunchEnv) (cmd : Cmd) :
    (∃ e, e ∈ (runStartVMCommand env cmd).1 ∧ e.isStartAttempt = true) ∧
    (∀ e ∈ (runStartVMCommand env cmd).1, e.isWaitReadyEv = false) := by
  rcases h1 : env.firstStart with _ | e1 <;>
    rcases h2 : env.configDefault with _ | e2 <;>
    rcases h3 : env.findHelperBinary with e3 | p <;>
    rcases h4 : env.secondStart with _ | e4 <;>
      constructor <;>
      simp [runStartVMCommand, h1, h2, h3, h4, Event.isStartAttempt,
        Event.isWaitReadyEv]

/-- Counting over a mapped list whose image always satisfies the
predicate gives the list's length. -/
theorem countP_map_eq_length {α : Type} (p : TokenGroup → Bool)
    (f : α → TokenGroup) (hp : ∀ a, p (f a) = true) (l : List α) :
    (l.map f).countP p = l.length := by
  induction l with
  | nil => rfl
  | cons a l ih => simp [List.countP_cons, hp, ih]

/-- Counting over a mapped list whose image never satisfies the
predicate gives zero. -/
theorem countP_map_eq_zero {α : Type} (p : TokenGroup → Bool)
    (f : α → TokenGroup) (hp : ∀ a, p (f a) = false) (l : List α) :
    (l.map f).countP p = 0 := by
  induction l with
  | nil => rfl
  | cons a l ih => simp [List.countP_cons, hp, ih]

/-! Claim theorems. -/

/-- Claim C9: for every machine name, the backend's existence check
returns `(false, nil)` — it never reports an existing machine and never
errors. -/
theorem Exists_always_false_and_nil (name : String) :
    Qemu.Exists name = (false, none) := rfl

/-- Claim C8: for every mount target, the remote directory-creation
command contains an immutability-clear (`chattr -i /`) before the
`mkdir` step and an immutability-restore (`chattr +i /`) after it
exactly when the target starts with neither "/home" nor "/mnt"; for a
target under "/home" or "/mnt" the command is the bare `mkdir` with no
immutability-toggle fragments. -/
theorem mkdirArgs_immutability (target : String) :
    (hasPrefixStr target "/home" = false → hasPrefixStr target "/mnt" = false →
      mkdirArgs target =
        ["-q", "--", "sudo", "chattr", "-i", "/", ";",
         "sudo", "mkdir", "-p", target, ";", "sudo", "chattr", "+i", "/", ";"]) ∧
    ((hasPrefixStr target "/home" = true ∨ hasPrefixStr target "/mnt" = true) →
      mkdirArgs target = ["-q", "--", "sudo", "mkdir", "-p", target]) := by
  constructor
  · intro h1 h2
    simp [mkdirArgs, h1, h2]
  · intro h
    rcases h with h | h <;> simp [mkdirArgs, h]

/-- Claim C8 witness: the target "/data" (outside "/home" and "/mnt")
gets the immutability-toggled command, and "/home/user/data" gets the
bare mkdir. -/
theorem mkdirArgs_immutability_witness :
    mkdirArgs "/data" =
      ["-q", "--", "sudo", "chattr", "-i", "/", ";",
       "sudo", "mkdir", "-p", "/data", ";", "sudo", "chattr", "+i", "/", ";"] ∧
    mkdirArgs "/home/user/data" =
      ["-q", "--", "sudo", "mkdir", "-p", "/home/user/data"] :=
  ⟨(mkdirArgs_immutability "/data").1 (by decide) (by decide),
   (mkdirArgs_immutability "/home/user/data").2 (Or.inl (by decide))⟩

/-- Claim C7: the readiness wait dials the readiness socket with exactly
6 attempts and a 500ms delay and the process-health check bound to the
supervised PID; on a successful connection it returns nil upon receipt of
the single line regardless of its content, the dialer's error if no
connection is made, and the read error if the line is never delivered. -/
theorem waitForReady_policy (renv : ReadyEnv) (path : String) (pid : Nat) :
    (waitForReady renv path pid).1 = ⟨6, 500, path, pid⟩ ∧
    (∀ e, renv.dial = Except.error e →
      (waitForReady renv path pid).2 = Except.error e) ∧
    (∀ line, renv.dial = Except.ok (Except.ok line) →
      (waitForReady renv path pid).2 = Except.ok ()) ∧
    (∀ e, renv.dial = Except.ok (Except.error e) →
      (waitForReady renv path pid).2 = Except.error e) := by
  refine ⟨waitForReady_fst renv path pid, ?_, ?_, ?_⟩ <;>
    intro x h <;> simp [waitForReady, h]

/-- Claim C7 witness: with a dial that connects and delivers the line,
the request carries the default policy and the wait returns nil. -/
theorem waitForReady_policy_witness :
    (waitForReady readyEnvW "/run/ready.sock" 1234).1 =
      ⟨6, 500, "/run/ready.sock", 1234⟩ ∧
    (waitForReady readyEnvW "/run/ready.sock" 1234).2 = Except.ok () :=
  ⟨(waitForReady_policy readyEnvW "/run/ready.sock" 1234).1,
   (waitForReady_policy readyEnvW "/run/ready.sock" 1234).2.2.1 "Ready" rfl⟩

/-- Claim C3: whenever the state query reports anything but Stopped, the
attribute-mutation operation returns the state-gate error, emits no
effect (no resize, no rootful toggle, no USB parse), and leaves the
machine configuration unchanged. -/
theorem SetProviderAttrs_state_gate (env : AttrEnv) (mc : MachineConfig)
    (opts : SetOptions) (s : VMState) (hs : env.state = Except.ok s)
    (hns : s ≠ VMState.stopped) :
    SetProviderAttrs env mc opts =
      ([], mc,
       Except.error (GoError.msg "unable to change settings unless vm is stopped")) := by
  simp [SetProviderAttrs, hs, hns]

/-- Claim C3 witness: a running VM rejects a combined disk, rootful,
and USB update with no effects and no config change. -/
theorem SetProviderAttrs_state_gate_witness :
    SetProviderAttrs attrEnvRunning mcW optsAll =
      ([], mcW,
       Except.error (GoError.msg "unable to change settings unless vm is stopped")) :=
  SetProviderAttrs_state_gate attrEnvRunning mcW optsAll VMState.running rfl
    (by decide)

/-- Claim C10: when the VM is Stopped and the requested rootful value
equals the machine's current one, the rootful-setting step is never
invoked and the rootful field is unchanged, whatever the other requested
changes do. -/
theorem SetProviderAttrs_rootful_idempotent (env : AttrEnv) (mc : MachineConfig)
    (opts : SetOptions) (r : Bool) (hs : env.state = Except.ok VMState.stopped)
    (hr : opts.rootful = some r) (hcur : mc.hostUser.rootful = r) :
    (∀ b, AttrEvent.setRootful b ∉ (SetProviderAttrs env mc opts).1) ∧
    (SetProviderAttrs env mc opts).2.1.hostUser.rootful = r := by
  rcases hds : opts.diskSize with _ | d <;>
    rcases hrz : env.resize with _ | e1 <;>
    rcases hus : opts.usbs with _ | raw <;>
      simp [SetProviderAttrs, hs, hds, hrz, hus, hr, hcur] <;>
      rcases hpu : env.parseUSBs raw with e2 | parsed <;>
      simp [hpu, hcur]

/-- Claim C10 witness: re-applying rootful=false to a stopped machine
already rootless emits no rootful toggle and leaves the flag false. -/
theorem SetProviderAttrs_rootful_idempotent_witness :
    (∀ b, AttrEvent.setRootful b ∉
      (SetProviderAttrs attrEnvStopped mcW optsRootfulSame).1) ∧
    (SetProviderAttrs attrEnvStopped mcW optsRootfulSame).2.1.hostUser.rootful =
      false :=
  SetProviderAttrs_rootful_idempotent attrEnvStopped mcW optsRootfulSame false
    rfl rfl rfl

/-- Claim C4: for every machine configuration with N mounts for which
command-line construction succeeds, the built command line contains
exactly one monitor-socket attachment, exactly one network-device
attachment, exactly one serial-port attachment, and exactly N virtfs
shared-directory attachments, regardless of the mounts' contents. -/
theorem setQEMUCommandLine_cardinality (env : CmdEnv) (mc : MachineConfig)
    (c : QemuCmd) (h : setQEMUCommandLine env mc = Except.ok c) :
    c.countMonitor = 1 ∧ c.countNetwork = 1 ∧ c.countSerial = 1 ∧
    c.countVirtfs = mc.mounts.length := by
  obtain ⟨ign, ready, gv, -, -, -, hg⟩ := setQEMUCommandLine_groups env mc c h
  refine ⟨?_, ?_, ?_, ?_⟩
  · simp only [QemuCmd.countMonitor, hg, List.countP_append]
    rw [countP_map_eq_zero _ _ (fun a => rfl), countP_map_eq_zero _ _ (fun a => rfl)]
    simp [List.countP_cons]
  · simp only [QemuCmd.countNetwork, hg, List.countP_append]
    rw [countP_map_eq_zero _ _ (fun a => rfl), countP_map_eq_zero _ _ (fun a => rfl)]
    simp [List.countP_cons]
  · simp only [QemuCmd.countSerial, hg, List.countP_append]
    rw [countP_map_eq_zero _ _ (fun a => rfl), countP_map_eq_zero _ _ (fun a => rfl)]
    simp [List.countP_cons]
  · simp only [QemuCmd.countVirtfs, hg, List.countP_append]
    rw [countP_map_eq_length _ _ (fun a => rfl), countP_map_eq_zero _ _ (fun a => rfl)]
    simp [List.countP_cons]

/-- Claim C4 witness: the command line for a configuration with two
mounts holds one monitor, one network, one serial, and two virtfs
attachments. -/
theorem setQEMUCommandLine_cardinality_witness :
    cmdW.countMonitor = 1 ∧ cmdW.countNetwork = 1 ∧ cmdW.countSerial = 1 ∧
    cmdW.countVirtfs = mcW.mounts.length :=
  setQEMUCommandLine_cardinality cmdEnvW mcW cmdW rfl

/-- Claim C1 counterexample: an initial start failure that is not of the
binary-not-found class ("permission denied") is not fatal without a
retry — the launcher still re-resolves the path, retries, and here the
launch succeeds. -/
theorem runStartVMCommand_retries_nonNotFound :
    launchEnvRetryOther.firstStart = some (GoError.msg "permission denied") ∧
    (runStartVMCommand launchEnvRetryOther cmdC).2.2 = Except.ok () ∧
    Event.procStartRetry "/usr/libexec/qemu" ∈
      (runStartVMCommand launchEnvRetryOther cmdC).1 := by
  refine ⟨rfl, rfl, ?_⟩
  simp [runStartVMCommand, launchEnvRetryOther, cmdC]

/-- Claim C1 (amended): on any initial start failure — regardless of its
class — the launcher re-resolves the executable path through the
helper-binary lookup and retries exactly once, and a second failure
after re-resolution is returned wrapped with the attempted command; a
successful initial start performs no lookup and no retry, and every
launch makes at most two start attempts. -/
theorem runStartVMCommand_retry_once (env : LaunchEnv) (cmd : Cmd) :
    (env.firstStart = none →
      runStartVMCommand env cmd =
        ([Event.procStart cmd.path cmd.args], cmd, Except.ok ())) ∧
    (∀ e1 p, env.firstStart = some e1 → env.configDefault = none →
      env.findHelperBinary = Except.ok p →
      (env.secondStart = none →
        runStartVMCommand env cmd =
          ([Event.procStart cmd.path cmd.args, Event.helperLookup QemuCommand,
            Event.procStartRetry p], { cmd with path := p }, Except.ok ())) ∧
      (∀ e2, env.secondStart = some e2 →
        runStartVMCommand env cmd =
          ([Event.procStart cmd.path cmd.args, Event.helperLookup QemuCommand,
            Event.procStartRetry p], { cmd with path := p },
           Except.error (GoError.ctxWrap ("unable to execute " ++ p) e2)))) ∧
    ((runStartVMCommand env cmd).1.countP Event.isStartAttempt ≤ 2) := by
  refine ⟨?_, ?_, ?_⟩
  · intro h1
    simp [runStartVMCommand, h1]
  · intro e1 p h1 h2 h3
    constructor
    · intro h4
      simp [runStartVMCommand, h1, h2, h3, h4]
    · intro e2 h4
      simp [runStartVMCommand, h1, h2, h3, h4]
  · rcases h1 : env.firstStart with _ | e1 <;>
      rcases h2 : env.configDefault with _ | e2 <;>
      rcases h3 : env.findHelperBinary with e3 | p <;>
      rcases h4 : env.secondStart with _ | e4 <;>
      simp [runStartVMCommand, h1, h2, h3, h4, Event.isStartAttempt]

/-- Claim C1 witness: a binary-not-found first failure followed by a
failing retry returns the second error wrapped with the attempted
command. -/
theorem runStartVMCommand_retry_once_witness :
    runStartVMCommand launchEnvSecondFail cmdC =
      ([Event.procStart cmdC.path cmdC.args, Event.helperLookup QemuCommand,
        Event.procStartRetry "/usr/libexec/qemu"],
       { cmdC with path := "/usr/libexec/qemu" },
       Except.error (GoError.ctxWrap ("unable to execute " ++ "/usr/libexec/qemu")
         (GoError.msg "exec format error"))) :=
  (((runStartVMCommand_retry_once launchEnvSecondFail cmdC).2.1
      GoError.notFound "/usr/libexec/qemu" rfl rfl rfl).2
    (GoError.msg "exec format error") rfl)

/-- Claim C2 counterexample: for a mount of unsupported type "virtiofs"
the pass fails, but the directory-creation remote command for that entry
has been issued — the entry does not go entirely without remote
commands as the claim states. -/
theorem MountVolumesToVM_unsupported_issues_mkdir :
    (MountVolumesToVM sshAllOk mcBadMount false).2 =
      Except.error (GoError.msg "unknown mount type: virtiofs") ∧
    (MountVolumesToVM sshAllOk mcBadMount false).1 =
      [mkdirCall mcBadMount mountBad] := by
  constructor <;> rfl

/-- Helper for the amended Claim C2: running the mount loop on a list
whose first unsupported-type mount is `m`, with every remote command
succeeding, issues the mkdir and mount commands of the supported
mounts before it, then only the mkdir command of `m`, and fails. -/
theorem mountLoop_unsupported (sshExec : SSHCall → Option GoError)
    (mc : MachineConfig) (m : Mount) (hm : m.type ≠ MountType9p)
    (hssh : ∀ c, sshExec c = none) :
    ∀ pre post, (∀ p ∈ pre, p.type = MountType9p) →
      mountLoop sshExec mc (pre ++ m :: post) =
        (pre.flatMap (fun p => [mkdirCall mc p, mountCall mc p]) ++
           [mkdirCall mc m],
         Except.error (GoError.msg ("unknown mount type: " ++ m.type))) := by
  intro pre
  induction pre with
  | nil =>
    intro post _
    simp [mountLoop, hssh, hm]
  | cons p ps ih =>
    intro post hpre
    have hp : p.type = MountType9p := hpre p (by simp)
    have ihp := ih post (fun q hq => hpre q (by simp [hq]))
    simp [mountLoop, hssh, hp, ihp]

/-- Claim C2 (amended): when the mount pass reaches a MountSpec whose
mount type is unsupported, it fails immediately for the whole pass: the
directory-creation command for that entry has already been issued before
the type check, but no mount command is issued for it and no remote
command at all is issued for any later entry. -/
theorem MountVolumesToVM_unsupported_failfast
    (sshExec : SSHCall → Option GoError) (mc : MachineConfig) (quiet : Bool)
    (pre post : List Mount) (m : Mount)
    (hmc : mc.mounts = pre ++ m :: post)
    (hm : m.type ≠ MountType9p)
    (hpre : ∀ p ∈ pre, p.type = MountType9p)
    (hssh : ∀ c, sshExec c = none) :
    MountVolumesToVM sshExec mc quiet =
      (pre.flatMap (fun p => [mkdirCall mc p, mountCall mc p]) ++
         [mkdirCall mc m],
       Except.error (GoError.msg ("unknown mount type: " ++ m.type))) := by
  unfold MountVolumesToVM
  rw [hmc]
  exact mountLoop_unsupported sshExec mc m hm hssh pre post hpre

/-- Claim C2 witness: the single-mount configuration with unsupported
type fails after issuing exactly its directory-creation command. -/
theorem MountVolumesToVM_unsupported_failfast_witness :
    MountVolumesToVM sshAllOk mcBadMount true =
      (([] : List Mount).flatMap
         (fun p => [mkdirCall mcBadMount p, mountCall mcBadMount p]) ++
         [mkdirCall mcBadMount mountBad],
       Except.error (GoError.msg ("unknown mount type: " ++ mountBad.type))) :=
  MountVolumesToVM_unsupported_failfast sshAllOk mcBadMount true [] [] mountBad
    rfl (by decide) (by simp) (fun _ => rfl)

/-- Adding the display flag appends exactly one display group. -/
theorem countDisplay_SetDisplay (c : QemuCmd) (m : String) :
    (c.SetDisplay m).countDisplay = c.countDisplay + 1 := by
  simp [QemuCmd.SetDisplay, QemuCmd.countDisplay, List.countP_append]

/-- A successful start run decomposes into: successful command-line
construction, resolved sockets, successful gvproxy wait and dev-null
setup, a successful launch, the result carrying the (possibly
display-suppressed) command line, and the trace being the gvproxy wait
followed by the launch attempts. -/
theorem StartVM_ok_shape (env : StartEnv) (mc : MachineConfig)
    (res : StartResult) (h : (StartVM env mc).2 = Except.ok res) :
    ∃ builtCmd gv ready ltr c2,
      setQEMUCommandLine env.cmdEnv mc = Except.ok builtCmd ∧
      env.cmdEnv.readySocket = Except.ok ready ∧
      env.cmdEnv.gvProxySocket = Except.ok gv ∧
      env.gvProxyWait = none ∧
      env.devNull = none ∧
      runStartVMCommand env.launch
        ⟨(if env.debugEnabled then builtCmd else builtCmd.SetDisplay "none").exe,
         if env.debugEnabled then builtCmd else builtCmd.SetDisplay "none"⟩ =
        (ltr, c2, Except.ok ()) ∧
      res = ⟨env.pid, ready,
        if env.debugEnabled then builtCmd else builtCmd.SetDisplay "none"⟩ ∧
      StartVM env mc =
        (Event.waitGvProxy gvProxyMaxBackoffAttempts gvProxyWaitBackoff gv :: ltr,
         Except.ok res) := by
  rcases hset : setQEMUCommandLine env.cmdEnv mc with e | builtCmd
  · simp [StartVM, hset] at h
  · rcases hrs : env.cmdEnv.readySocket with e | ready
    · simp [StartVM, hset, hrs] at h
    · rcases hgv : env.cmdEnv.gvProxySocket with e | gv
      · simp [StartVM, hset, hrs, hgv] at h
      · rcases hgw : env.gvProxyWait with _ | e
        · rcases hdn : env.devNull with _ | e
          · rcases hrun : runStartVMCommand env.launch
                ⟨(if env.debugEnabled then builtCmd else builtCmd.SetDisplay "none").exe,
                 if env.debugEnabled then builtCmd else builtCmd.SetDisplay "none"⟩
              with ⟨ltr, c2, rr⟩
            rcases rr with e | u
            · simp [StartVM, hset, hrs, hgv, hgw, hdn, hrun] at h
            · cases u
              have hSV : StartVM env mc =
                  (Event.waitGvProxy gvProxyMaxBackoffAttempts gvProxyWaitBackoff gv
                     :: ltr,
                   Except.ok (⟨env.pid, ready,
                     if env.debugEnabled then builtCmd
                     else builtCmd.SetDisplay "none"⟩ : StartResult)) := by
                simp [StartVM, hset, hrs, hgv, hgw, hdn, hrun]
              have hres : (Except.ok res : Except GoError StartResult) =
                  Except.ok ((⟨env.pid, ready,
                    if env.debugEnabled then builtCmd
                    else builtCmd.SetDisplay "none"⟩ : StartResult)) := by
                rw [← h, hSV]
              have hres2 := Except.ok.inj hres
              subst hres2
              exact ⟨builtCmd, gv, ready, ltr, c2, rfl, rfl, rfl, rfl, rfl,
                hrun, rfl, hSV⟩
          · simp [StartVM, hset, hrs, hgv, hgw, hdn] at h
        · simp [StartVM, hset, hrs, hgv, hgw] at h

/-- Claim C5: in every successful run of StartVM the gvproxy-socket wait
is the first emitted effect and completes before any start attempt of
the hypervisor process, and the readiness wait occurs only after the
launch, via the returned handle; if the gvproxy socket never becomes
reachable, StartVM fails and no start attempt is made. -/
theorem StartVM_ordering (env : StartEnv) (renv : ReadyEnv)
    (mc : MachineConfig) :
    (∀ res, (StartVM env mc).2 = Except.ok res →
      ∃ gv ltr,
        env.gvProxyWait = none ∧
        (startAndAwait env renv mc).1 =
          Event.waitGvProxy gvProxyMaxBackoffAttempts gvProxyWaitBackoff gv ::
            (ltr ++ [Event.waitReady res.readySocketPath res.pid]) ∧
        (∃ e, e ∈ ltr ∧ e.isStartAttempt = true) ∧
        (∀ e ∈ ltr, e.isWaitReadyEv = false)) ∧
    (∀ err, env.gvProxyWait = some err →
      (∀ res, (StartVM env mc).2 ≠ Except.ok res) ∧
      (∀ e ∈ (StartVM env mc).1, e.isStartAttempt = false)) := by
  constructor
  · intro res h
    obtain ⟨builtCmd, gv, ready, ltr, c2, hset, hrs, hgv, hgw, hdn, hrun,
      hres, hSV⟩ := StartVM_ok_shape env mc res h
    refine ⟨gv, ltr, hgw, ?_, ?_, ?_⟩
    · simp [startAndAwait, hSV, waitForReady_fst]
    · have ht := (runStartVMCommand_trace env.launch
        ⟨(if env.debugEnabled then builtCmd else builtCmd.SetDisplay "none").exe,
         if env.debugEnabled then builtCmd else builtCmd.SetDisplay "none"⟩).1
      rw [hrun] at ht
      exact ht
    · have ht := (runStartVMCommand_trace env.launch
        ⟨(if env.debugEnabled then builtCmd else builtCmd.SetDisplay "none").exe,
         if env.debugEnabled then builtCmd else builtCmd.SetDisplay "none"⟩).2
      rw [hrun] at ht
      exact ht
  · intro err hgw
    constructor
    · intro res h
      obtain ⟨-, -, -, -, -, -, -, -, hgw2, -⟩ := StartVM_ok_shape env mc res h
      rw [hgw] at hgw2
      exact Option.noConfusion hgw2
    · rcases hset : setQEMUCommandLine env.cmdEnv mc with e | builtCmd <;>
        rcases hrs : env.cmdEnv.readySocket with e2 | ready <;>
        rcases hgv : env.cmdEnv.gvProxySocket with e3 | gv <;>
          simp [StartVM, hset, hrs, hgv, hgw, Event.isStartAttempt]

/-- Claim C5 witness: the fully successful concrete start run satisfies
the ordering properties. -/
theorem StartVM_ordering_witness :
    ∃ gv ltr,
      startEnvW.gvProxyWait = none ∧
      (startAndAwait startEnvW readyEnvW mcW).1 =
        Event.waitGvProxy gvProxyMaxBackoffAttempts gvProxyWaitBackoff gv ::
          (ltr ++ [Event.waitReady startResW.readySocketPath startResW.pid]) ∧
      (∃ e, e ∈ ltr ∧ e.isStartAttempt = true) ∧
      (∀ e ∈ ltr, e.isWaitReadyEv = false) :=
  (StartVM_ordering startEnvW readyEnvW mcW).1 startResW rfl

/-- Claim C6: in the command line actually executed by a successful
start, the display-mode token group appears exactly when debug-level
diagnostics are not enabled, and its value is "none", disabling the
graphic window. -/
theorem StartVM_display_gate (env : StartEnv) (mc : MachineConfig)
    (res : StartResult) (h : (StartVM env mc).2 = Except.ok res) :
    res.cmdLine.countDisplay = (if env.debugEnabled then 0 else 1) ∧
    (env.debugEnabled = false →
      TokenGroup.display "none" ∈ res.cmdLine.groups) := by
  obtain ⟨builtCmd, gv, ready, ltr, c2, hset, hrs, hgv, hgw, hdn, hrun,
    hres, hSV⟩ := StartVM_ok_shape env mc res h
  have hz : builtCmd.countDisplay = 0 := by
    obtain ⟨ign, ready2, gv2, -, -, -, hg⟩ :=
      setQEMUCommandLine_groups env.cmdEnv mc builtCmd hset
    simp only [QemuCmd.countDisplay, hg, List.countP_append]
    rw [countP_map_eq_zero _ _ (fun a => rfl),
      countP_map_eq_zero _ _ (fun a => rfl)]
    simp [List.countP_cons]
  cases hdb : env.debugEnabled with
  | false =>
    constructor
    · rw [hres]
      simp only [hdb, if_false, Bool.false_eq_true]
      rw [countDisplay_SetDisplay, hz]
    · intro hd
      rw [hres]
      simp [hdb, QemuCmd.SetDisplay]
  | true =>
    constructor
    · rw [hres]
      simp only [hdb, if_true]
      exact hz
    · intro hd
      exact Bool.noConfusion hd

/-- Claim C6 witness: with debug diagnostics disabled, the executed
command line of the concrete successful run carries exactly one display
group, with value "none". -/
theorem StartVM_display_gate_witness :
    startResW.cmdLine.countDisplay = (if startEnvW.debugEnabled then 0 else 1) ∧
    (startEnvW.debugEnabled = false →
      TokenGroup.display "none" ∈ startResW.cmdLine.groups) :=
  StartVM_display_gate startEnvW mcW startResW rfl

end Qemu
